import Mathlib

/-!
Shallow embedding of the Dialog Coordination Protocol of the AI-Chat-HITL
repository: the `MCPServer` class (pending-dialog registry, per-workspace
history ledger and dialog counters, the `/respond`, `/dialog` and `/pending`
HTTP handlers, and the JSON-RPC `handleMCPRequest` dispatcher), together with
the standalone SSE bridge server's copy of the JSON-RPC dispatcher.

JavaScript `Map<string, T>` values are modelled as insertion-ordered
association lists; `undefined`-able JSON fields as `Option`; the stored
`resolve` closure of a `PendingDialog` is made explicit by recording the data
it captures (reason, workspace, and the history snapshot taken at submission
time).  Each server process is single-threaded and event-driven, so every
HTTP-handler body runs to completion atomically; each handler is therefore one
state-transition function.
-/

namespace HITL

/-- Attachment kind tag (`'image' | 'file' | 'code'` in the source). -/
inductive AttachmentType where
  | image
  | file
  | code
deriving DecidableEq, Repr

/-- `Attachment` interface: `{type, name, content, mimeType?}`. -/
structure Attachment where
  type : AttachmentType
  name : String
  content : String
  mimeType : Option String := none
deriving DecidableEq, Repr

/-- The payload a dialog is resolved with:
`{shouldContinue, userInput, attachments?}`. -/
structure DialogResolution where
  shouldContinue : Bool
  userInput : String
  attachments : Option (List Attachment) := none
deriving DecidableEq, Repr

/-- `DialogHistoryItem` interface: `{timestamp, reason, userInput, continued}`. -/
structure DialogHistoryItem where
  timestamp : Nat
  reason : String
  userInput : String
  continued : Bool
deriving DecidableEq, Repr

/-- One entry of `pendingDialogs`.  The source stores a `resolve` closure; the
closure captures `reason`, `workspace` and the `history` array read at
submission time, so the entry carries those captured values explicitly. -/
structure PendingEntry where
  id : String
  reason : String
  workspace : String
  snapshot : List DialogHistoryItem
deriving DecidableEq, Repr

/-- `Map.get`: first entry with the given key. -/
def mapGet {β : Type} : List (String × β) → String → Option β
  | [], _ => none
  | (k', v) :: rest, k => if k' = k then some v else mapGet rest k

/-- `Map.set`: update an existing key in place, else append at the end. -/
def mapSet {β : Type} : List (String × β) → String → β → List (String × β)
  | [], k, v => [(k, v)]
  | (k', v') :: rest, k, v =>
      if k' = k then (k, v) :: rest else (k', v') :: mapSet rest k v

/-- `Map.delete`: drop the entry with the given key. -/
def mapDelete {β : Type} : List (String × β) → String → List (String × β)
  | [], _ => []
  | (k', v) :: rest, k =>
      if k' = k then mapDelete rest k else (k', v) :: mapDelete rest k

/-- The mutable state of one `MCPServer` instance. -/
structure ServerState where
  pendingDialogs : List (String × PendingEntry)
  dialogHistory : List (String × List DialogHistoryItem)
  dialogCounts : List (String × Nat)
deriving DecidableEq, Repr

/-- Freshly constructed server: all three maps empty. -/
def ServerState.init : ServerState := ⟨[], [], []⟩

/-- Submission of a new dialog (the shared body of the `POST /dialog` handler
and of `callDialogInternal`): increment and store the workspace's counter,
read the workspace's history array, register the pending entry (which captures
that history snapshot), and expose the assigned count.  `dialogId` is the
freshly generated id (`dialog_${Date.now()}_${random}`), passed in here as a
parameter.  Returns the new state and `currentCount`, which is what
`onDialogRequest` receives. -/
def submit (s : ServerState) (reason workspace dialogId : String) :
    ServerState × Nat :=
  let currentCount := (mapGet s.dialogCounts workspace).getD 0 + 1
  let counts := mapSet s.dialogCounts workspace currentCount
  let history := (mapGet s.dialogHistory workspace).getD []
  let pending :=
    mapSet s.pendingDialogs dialogId ⟨dialogId, reason, workspace, history⟩
  (⟨pending, s.dialogHistory, counts⟩, currentCount)

/-- Resolution of a pending dialog by id (the shared effect of
`respondToDialog` and of the `POST /respond` handler's found-branch, together
with the stored `resolve` closure / promise continuation it triggers): look up
the id; if absent do nothing and report `none` (not found); if present, write
`[...snapshot, historyItem]` to the workspace's history, delete the pending
entry, and deliver the payload (`some r`) to the awaiting caller. -/
def resolveDialog (s : ServerState) (dialogId : String) (r : DialogResolution)
    (now : Nat) : ServerState × Option DialogResolution :=
  match mapGet s.pendingDialogs dialogId with
  | none => (s, none)
  | some entry =>
      let item : DialogHistoryItem :=
        ⟨now, entry.reason, r.userInput, r.shouldContinue⟩
      let history :=
        mapSet s.dialogHistory entry.workspace (entry.snapshot ++ [item])
      let pending := mapDelete s.pendingDialogs dialogId
      (⟨pending, history, s.dialogCounts⟩, some r)

/-- `respondToDialog(dialogId, ...)`: returns `true` on success, `false` when
the id is not pending. -/
def respondToDialog (s : ServerState) (dialogId : String)
    (r : DialogResolution) (now : Nat) : ServerState × Bool :=
  let step := resolveDialog s dialogId r now
  (step.1, step.2.isSome)

/-- JavaScript truthiness of an optional string (`undefined` and `''` are
falsy). -/
def jsTruthy : Option String → Bool
  | none => false
  | some v => v ≠ ""

/-- The `POST /respond` handler: `const dialogId = data.id || data.dialogId`,
then look up and resolve.  A missing key (`undefined`) matches no map entry.
Returns the new state and the `success` flag of the JSON reply. -/
def respondEndpoint (s : ServerState) (id dialogId : Option String)
    (r : DialogResolution) (now : Nat) : ServerState × Bool :=
  match (if jsTruthy id then id else dialogId) with
  | none => (s, false)
  | some k => respondToDialog s k r now

/-- Path normalization used by the `/pending` filter:
`p.toLowerCase().replace(/\\/g, '/')`, rendered on the string's character
sequence (both operations are per-character). -/
def normPath (p : String) : List Char :=
  p.data.map fun c => let lc := c.toLower; if lc = '\\' then '/' else lc

/-- `String.prototype.startsWith` on character sequences. -/
def startsWithL : List Char → List Char → Bool
  | _, [] => true
  | [], _ :: _ => false
  | c :: cs, p :: ps => c = p && startsWithL cs ps

/-- The containment predicate of the `GET /pending?workspace=` filter:
`dPath === wPath || dPath.startsWith(wPath + '/') || wPath.startsWith(dPath + '/')`
after normalization. -/
def containsMatch (dPath wPath : String) : Bool :=
  let d := normPath dPath
  let w := normPath wPath
  d = w || startsWithL d (w ++ ['/']) || startsWithL w (d ++ ['/'])

/-- The `GET /pending` handler: list all pending dialogs; when a truthy
`workspace` query parameter is supplied, keep only those whose workspace is
the same as, contained in, or containing the filter path. -/
def listPending (s : ServerState) (workspace : Option String) :
    List PendingEntry :=
  let pendingList := s.pendingDialogs.map Prod.snd
  match workspace with
  | some w =>
      if w = "" then pendingList
      else pendingList.filter fun d => containsMatch d.workspace w
  | none => pendingList

/-- The fields of an incoming JSON-RPC message that `handleMCPRequest` reads.
`id` is `none` when the message carries no id (`request.id === undefined`);
`paramsName` models `request.params?.name`; `argReason` / `argWorkspace` model
`request.params.arguments.reason` / `.workspace` (absent → `none`). -/
structure MCPRequestMsg where
  id : Option String
  method : String
  paramsName : Option String
  argReason : Option String
  argWorkspace : Option String
deriving DecidableEq, Repr

/-- The result payloads `handleMCPRequest` can produce (the fixed JSON shapes
of the source, with their constant parts absorbed into the constructors:
`initRes` also carries `capabilities: {tools: {}}`, `toolsListRes` is the
single tool descriptor with its input schema). -/
inductive MCPResult where
  | initRes (protocolVersion serverName serverVersion : String)
  | toolsListRes (name description : String) (schemaRequired : List String)
  | textContent (text : String)
deriving DecidableEq, Repr

/-- A JSON-RPC error object `{code, message}`. -/
structure ErrorObj where
  code : Int
  message : String
deriving DecidableEq, Repr

/-- A JSON-RPC response: either `{jsonrpc, id, result}` or
`{jsonrpc, id, error}`. -/
inductive MCPResponse where
  | success (id : Option String) (result : MCPResult)
  | failure (id : Option String) (error : ErrorObj)
deriving DecidableEq, Repr

/-- What one dispatch of `handleMCPRequest` does besides updating state:
return a response now, return nothing (a notification), or suspend — the
published tool was called, a pending dialog with the given id was registered,
and the JSON-RPC response is produced only when that dialog resolves. -/
inductive HandleOutcome where
  | response (r : MCPResponse)
  | noResponse
  | suspended (dialogId : String)
deriving DecidableEq, Repr

/-- JavaScript template-literal rendering of a possibly-`undefined` string. -/
def jsTemplate : Option String → String
  | none => "undefined"
  | some v => v

/-- The tool description published by `tools/list`. -/
def toolDescription : String :=
  "当AI想要结束对话时必须调用此工具询问用户是否继续。Call this tool when AI wants to end conversation to ask user whether to continue."

/-- `handleMCPRequest` of the `MCPServer` class: dispatch on `request.method`.
The `version` field of the server is a per-instance constant here; `dialogId`
is the id freshly generated for a published-tool call (unused on every other
branch). -/
def handleMCP (version : String) (s : ServerState) (req : MCPRequestMsg)
    (dialogId : String) : ServerState × HandleOutcome :=
  if req.method = "initialize" then
    (s, .response (.success req.id (.initRes "2024-11-05" "AI_chat_HITL" version)))
  else if req.method = "initialized" then
    (s, .noResponse)
  else if req.method = "tools/list" then
    (s, .response (.success req.id
      (.toolsListRes "AI_chat_HITL" toolDescription ["reason", "workspace"])))
  else if req.method = "tools/call" then
    if req.paramsName = some "AI_chat_HITL" then
      let sub := submit s (req.argReason.getD "") (req.argWorkspace.getD "") dialogId
      (sub.1, .suspended dialogId)
    else
      (s, .response (.failure req.id
        ⟨-32601, "Unknown tool: " ++ jsTemplate req.paramsName⟩))
  else
    match req.id with
    | some i =>
        (s, .response (.failure (some i)
          ⟨-32601, "Method not found: " ++ req.method⟩))
    | none => (s, .noResponse)

/-- The fixed stop directive returned when the user chose not to continue. -/
def stopText : String :=
  "用户选择结束对话。请立即停止所有操作，不要继续执行任何任务。"

/-- Rendering of one attachment inside the `tools/call` result text of the
`MCPServer` (extension) dispatcher: images inline their base64 data when it is
a data URL, files and code inline their full content. -/
def renderAttachment (att : Attachment) : String :=
  match att.type with
  | .image =>
      if att.content ≠ "" && att.content.startsWith "data:" then
        "- [图片] " ++ att.name ++ "\n图片数据(base64): " ++ att.content ++ "\n"
      else
        "- [图片] " ++ att.name ++ "\n"
  | .file => "- [文件] " ++ att.name ++ "\n内容:\n" ++ att.content ++ "\n"
  | .code =>
      "- [代码] " ++ att.name ++ "\n\x60\x60\x60\n" ++ att.content ++ "\n\x60\x60\x60\n"

/-- Rendering of one attachment in the standalone SSE bridge server's copy of
the dispatcher: identical except that images contribute only their name. -/
def renderAttachmentSSE (att : Attachment) : String :=
  match att.type with
  | .image => "- [图片] " ++ att.name ++ "\n"
  | .file => "- [文件] " ++ att.name ++ "\n内容:\n" ++ att.content ++ "\n"
  | .code =>
      "- [代码] " ++ att.name ++ "\n\x60\x60\x60\n" ++ att.content ++ "\n\x60\x60\x60\n"

/-- The `for (const att of response.attachments)` accumulation loop. -/
def renderAll (f : Attachment → String) : List Attachment → String
  | [] => ""
  | a :: rest => f a ++ renderAll f rest

/-- The `resultText` computation of the `tools/call` branch, shared shape of
both dispatchers (parametrised by the per-attachment rendering). -/
def formatWith (f : Attachment → String) (r : DialogResolution) : String :=
  if r.shouldContinue then
    let base :=
      "用户选择继续，并提供了新指令:\n" ++ r.userInput ++ "\n\n请立即执行用户的新指令。"
    match r.attachments with
    | some l =>
        if l.length > 0 then base ++ "\n\n附件信息:\n" ++ renderAll f l
        else base
    | none => base
  else
    stopText

/-- `resultText` of the extension's `handleMCPRequest`. -/
def formatToolResult (r : DialogResolution) : String :=
  formatWith renderAttachment r

/-- `resultText` of the SSE bridge server's `handleMCPRequest`. -/
def formatToolResultSSE (r : DialogResolution) : String :=
  formatWith renderAttachmentSSE r

/-! ### Association-list (JS `Map`) lemmas -/

theorem mapGet_mapSet_self {β : Type} (m : List (String × β)) (k : String)
    (v : β) : mapGet (mapSet m k v) k = some v := by
  induction m with
  | nil => simp [mapSet, mapGet]
  | cons hd tl ih =>
      obtain ⟨k', v'⟩ := hd
      by_cases h : k' = k
      · simp [mapSet, mapGet, h]
      · simp [mapSet, mapGet, h, ih]

theorem mapGet_mapSet_ne {β : Type} (m : List (String × β)) (k k2 : String)
    (v : β) (h : k2 ≠ k) : mapGet (mapSet m k v) k2 = mapGet m k2 := by
  induction m with
  | nil => simp [mapSet, mapGet, h.symm]
  | cons hd tl ih =>
      obtain ⟨k', v'⟩ := hd
      by_cases hk : k' = k
      · subst hk
        simp [mapSet, mapGet, h.symm]
      · simp only [mapSet, if_neg hk, mapGet]
        by_cases hk2 : k' = k2
        · simp [hk2]
        · simp [hk2, ih]

theorem mapGet_mapDelete_self {β : Type} (m : List (String × β)) (k : String) :
    mapGet (mapDelete m k) k = none := by
  induction m with
  | nil => simp [mapDelete, mapGet]
  | cons hd tl ih =>
      obtain ⟨k', v'⟩ := hd
      by_cases h : k' = k
      · simp [mapDelete, h, ih]
      · simp [mapDelete, mapGet, h, ih]

theorem mapGet_mapDelete_ne {β : Type} (m : List (String × β)) (k k2 : String)
    (h : k2 ≠ k) : mapGet (mapDelete m k) k2 = mapGet m k2 := by
  induction m with
  | nil => simp [mapDelete]
  | cons hd tl ih =>
      obtain ⟨k', v'⟩ := hd
      by_cases hk : k' = k
      · subst hk
        simp [mapDelete, mapGet, h.symm, ih]
      · simp only [mapDelete, if_neg hk, mapGet]
        by_cases hk2 : k' = k2
        · simp [hk2]
        · simp [hk2, ih]

/-- One submission event of a trace: the `{reason, workspace}` body plus the
id the server generates for it. -/
structure SubmitEvent where
  reason : String
  workspace : String
  dialogId : String
deriving DecidableEq, Repr

/-- Run a sequence of submissions, recording for each the workspace it named
and the `currentCount` it was handed. -/
def runTrace : ServerState → List SubmitEvent → ServerState × List (String × Nat)
  | s, [] => (s, [])
  | s, e :: rest =>
      let step := submit s e.reason e.workspace e.dialogId
      let out := runTrace step.1 rest
      (out.1, (e.workspace, step.2) :: out.2)

/-! ### Claim theorems -/

/-- Claim C1: resolution succeeds at most once per dialog id.  Resolving an id that
is not pending returns not-found (`none`) and leaves the whole state — pending
set, history ledger, counters — unchanged; resolving a pending id delivers
exactly the supplied payload to the awaiting caller and removes exactly that
entry, after which any further resolve call on the same id is a no-op
not-found. -/
theorem resolve_at_most_once (s : ServerState) (id : String)
    (r : DialogResolution) (now : Nat) :
    (mapGet s.pendingDialogs id = none → resolveDialog s id r now = (s, none)) ∧
    (∀ e, mapGet s.pendingDialogs id = some e →
      (resolveDialog s id r now).2 = some r ∧
      (resolveDialog s id r now).1.pendingDialogs
        = mapDelete s.pendingDialogs id ∧
      ∀ r' now', resolveDialog (resolveDialog s id r now).1 id r' now'
        = ((resolveDialog s id r now).1, none)) := by
  constructor
  · intro h
    simp [resolveDialog, h]
  · intro e he
    have hres : resolveDialog s id r now =
        (⟨mapDelete s.pendingDialogs id,
          mapSet s.dialogHistory e.workspace
            (e.snapshot ++ [⟨now, e.reason, r.userInput, r.shouldContinue⟩]),
          s.dialogCounts⟩, some r) := by
      simp [resolveDialog, he]
    refine ⟨by rw [hres], by rw [hres], ?_⟩
    intro r' now'
    rw [hres]
    simp [resolveDialog, mapGet_mapDelete_self]

/-- Witness for C1: on a concrete one-dialog state, the first resolve delivers
the payload and the second resolve of the same id is a no-op not-found. -/
theorem resolve_at_most_once_witness :
    (resolveDialog ((submit ServerState.init "why" "/w" "D1").1) "D1"
        ⟨true, "go", none⟩ 5).2 = some ⟨true, "go", none⟩ ∧
    resolveDialog (resolveDialog ((submit ServerState.init "why" "/w" "D1").1)
        "D1" ⟨true, "go", none⟩ 5).1 "D1" ⟨false, "x", none⟩ 6
      = ((resolveDialog ((submit ServerState.init "why" "/w" "D1").1) "D1"
          ⟨true, "go", none⟩ 5).1, none) := by
  have h := resolve_at_most_once ((submit ServerState.init "why" "/w" "D1").1)
    "D1" ⟨true, "go", none⟩ 5
  have h2 := h.2 ⟨"D1", "why", "/w", []⟩ (by decide)
  exact ⟨h2.1, h2.2.2 ⟨false, "x", none⟩ 6⟩

/-- Claim C2 (code bug): the history ledger is NOT append-only when two
dialogs are in flight on the same workspace.  Both pending entries capture the
history snapshot taken at their submission; each resolution writes
`snapshot ++ [item]` back, so the second resolution overwrites the first's
entry instead of appending after it.  Concretely: submit "A" then "B" on
workspace "/w", resolve "A" (succeeds), resolve "B" (succeeds) — the final
history for "/w" holds only B's entry; A's entry is lost, where the claim
requires both. -/
theorem history_lost_update_bug :
    (resolveDialog ((submit ((submit ServerState.init "rA" "/w" "A").1)
        "rB" "/w" "B").1) "A" ⟨true, "ua", none⟩ 10).2
      = some ⟨true, "ua", none⟩ ∧
    (resolveDialog (resolveDialog ((submit ((submit ServerState.init "rA" "/w" "A").1)
        "rB" "/w" "B").1) "A" ⟨true, "ua", none⟩ 10).1 "B"
        ⟨true, "ub", none⟩ 20).2
      = some ⟨true, "ub", none⟩ ∧
    mapGet (resolveDialog (resolveDialog ((submit ((submit ServerState.init "rA" "/w" "A").1)
        "rB" "/w" "B").1) "A" ⟨true, "ua", none⟩ 10).1 "B"
        ⟨true, "ub", none⟩ 20).1.dialogHistory "/w"
      = some [⟨20, "rB", "ub", true⟩] := by
  refine ⟨rfl, rfl, rfl⟩

/-- Counterexample to claim C3: the counters are keyed by the raw workspace
string, with no case or slash normalization.  One submission with "/A" and one
with "/a" leave two independent counters, each at 1; no shared counter ever
reaches 2 as the claim requires. -/
theorem counter_not_normalized :
    ((submit ((submit ServerState.init "r" "/A" "d1").1) "r" "/a" "d2").1).dialogCounts
      = [("/A", 1), ("/a", 1)] := by
  rfl

/-- Claim C3 (amended): the history ledger and the dialog counter are keyed by
the raw workspace string.  A submission increments and stores exactly its own
raw key's counter, leaves every other key's counter untouched (even one
differing only in letter case or slash direction), and never touches the
history map, so distinct raw strings maintain fully independent counters and
histories. -/
theorem counter_keyed_by_raw_string (s : ServerState) (reason w d w' : String)
    (h : w' ≠ w) :
    mapGet (submit s reason w d).1.dialogCounts w' = mapGet s.dialogCounts w' ∧
    (submit s reason w d).1.dialogHistory = s.dialogHistory ∧
    mapGet (submit s reason w d).1.dialogCounts w
      = some ((mapGet s.dialogCounts w).getD 0 + 1) := by
  refine ⟨?_, rfl, ?_⟩
  · simpa [submit] using mapGet_mapSet_ne s.dialogCounts w w'
      ((mapGet s.dialogCounts w).getD 0 + 1) h
  · simpa [submit] using mapGet_mapSet_self s.dialogCounts w
      ((mapGet s.dialogCounts w).getD 0 + 1)

/-- Witness for the amended C3, at the counterexample's own input: submitting
with "/A" does not touch the "/a" counter and sets the "/A" counter to 1. -/
theorem counter_keyed_by_raw_string_witness :
    mapGet (submit ServerState.init "r" "/A" "d1").1.dialogCounts "/a"
      = mapGet ServerState.init.dialogCounts "/a" ∧
    mapGet (submit ServerState.init "r" "/A" "d1").1.dialogCounts "/A"
      = some ((mapGet ServerState.init.dialogCounts "/A").getD 0 + 1) := by
  have h := counter_keyed_by_raw_string ServerState.init "r" "/A" "d1" "/a"
    (by decide)
  exact ⟨h.1, h.2.2⟩

/-- From any starting state, the counts handed out to the submissions naming
workspace `W` form the consecutive run starting just above `W`'s current
counter, however many submissions for other workspaces are interleaved. -/
theorem runTrace_counts (tr : List SubmitEvent) (s : ServerState) (W : String) :
    ((runTrace s tr).2.filter (fun p => p.1 == W)).map Prod.snd
      = List.range' ((mapGet s.dialogCounts W).getD 0 + 1)
          (tr.countP (fun e => e.workspace == W)) := by
  induction tr generalizing s with
  | nil => simp [runTrace]
  | cons e rest ih =>
      have hcounts : (submit s e.reason e.workspace e.dialogId).1.dialogCounts
          = mapSet s.dialogCounts e.workspace
              ((mapGet s.dialogCounts e.workspace).getD 0 + 1) := rfl
      by_cases hw : e.workspace = W
      · subst hw
        have hget : mapGet (submit s e.reason e.workspace e.dialogId).1.dialogCounts
              e.workspace
            = some ((mapGet s.dialogCounts e.workspace).getD 0 + 1) := by
          rw [hcounts]
          exact mapGet_mapSet_self ..
        have hc2 : (submit s e.reason e.workspace e.dialogId).2
            = (mapGet s.dialogCounts e.workspace).getD 0 + 1 := rfl
        simp [runTrace, List.countP_cons, ih, hget, hc2, List.range'_succ]
      · have hget : mapGet (submit s e.reason e.workspace e.dialogId).1.dialogCounts W
            = mapGet s.dialogCounts W := by
          rw [hcounts]
          exact mapGet_mapSet_ne _ _ _ _ (fun hc => hw hc.symm)
        simp [runTrace, List.countP_cons, ih, hget, hw]

/-- Claim C4: from a fresh server, the submissions naming workspace `W` in any
trace receive counts 1, 2, ..., N in submission order (N the number of such
submissions), regardless of interleaved submissions for other workspaces;
moreover each submission's count is already stored in the counter map, and the
pending entry registered, in the very state in which the count is handed to
the consumer. -/
theorem sequence_monotonic (tr : List SubmitEvent) (W : String) :
    ((runTrace ServerState.init tr).2.filter (fun p => p.1 == W)).map Prod.snd
      = List.range' 1 (tr.countP (fun e => e.workspace == W)) ∧
    ∀ (s : ServerState) (reason w d : String),
      mapGet (submit s reason w d).1.dialogCounts w = some (submit s reason w d).2 ∧
      mapGet (submit s reason w d).1.pendingDialogs d
        = some ⟨d, reason, w, (mapGet s.dialogHistory w).getD []⟩ := by
  constructor
  · simpa using runTrace_counts tr ServerState.init W
  · intro s reason w d
    constructor
    · simpa [submit] using mapGet_mapSet_self s.dialogCounts w
        ((mapGet s.dialogCounts w).getD 0 + 1)
    · simpa [submit] using mapGet_mapSet_self s.pendingDialogs d
        ⟨d, reason, w, (mapGet s.dialogHistory w).getD []⟩

/-- A concrete server state with three pending dialogs on workspaces "/a/b",
"/a" and "/x", used to check the containment-routing examples. -/
def exState : ServerState :=
  ⟨[("A", ⟨"A", "r1", "/a/b", []⟩), ("B", ⟨"B", "r2", "/a", []⟩),
    ("C", ⟨"C", "r3", "/x", []⟩)], [], []⟩

/-- Claim C5: the `/pending` workspace filter implements containment routing.
With a (truthy) filter path `w`, a pending request with workspace `d` is
returned iff, after lowercasing and slash-normalizing both, `d` equals `w`,
`d` starts with `w ++ "/"`, or `w` starts with `d ++ "/"`; with no filter,
every pending request is returned.  The four `shouldClaim` examples follow on
a concrete three-dialog state. -/
theorem pending_filter_containment :
    (∀ (s : ServerState) (w : String), w ≠ "" → ∀ e : PendingEntry,
      (e ∈ listPending s (some w) ↔
        e ∈ s.pendingDialogs.map Prod.snd ∧
          (normPath e.workspace = normPath w ∨
           startsWithL (normPath e.workspace) (normPath w ++ ['/']) = true ∨
           startsWithL (normPath w) (normPath e.workspace ++ ['/']) = true))) ∧
    (∀ s : ServerState, listPending s none = s.pendingDialogs.map Prod.snd) ∧
    ((⟨"A", "r1", "/a/b", []⟩ : PendingEntry) ∈ listPending exState (some "/a")) ∧
    ((⟨"B", "r2", "/a", []⟩ : PendingEntry) ∈ listPending exState (some "/a/b")) ∧
    ((⟨"C", "r3", "/x", []⟩ : PendingEntry) ∉ listPending exState (some "/a")) ∧
    (listPending exState none
      = [⟨"A", "r1", "/a/b", []⟩, ⟨"B", "r2", "/a", []⟩, ⟨"C", "r3", "/x", []⟩]) := by
  refine ⟨?_, fun s => rfl, by decide, by decide, by decide, by decide⟩
  intro s w hw e
  simp [listPending, hw, List.mem_filter, containsMatch, or_assoc]

/-- Witness for C5: the universal filter characterization, instantiated on the
concrete example state at filter "/a" and the dialog on workspace "/a/b". -/
theorem pending_filter_containment_witness :
    (⟨"A", "r1", "/a/b", []⟩ : PendingEntry) ∈ listPending exState (some "/a") ↔
      (⟨"A", "r1", "/a/b", []⟩ : PendingEntry) ∈ exState.pendingDialogs.map Prod.snd ∧
      (normPath "/a/b" = normPath "/a" ∨
       startsWithL (normPath "/a/b") (normPath "/a" ++ ['/']) = true ∨
       startsWithL (normPath "/a") (normPath "/a/b" ++ ['/']) = true) :=
  pending_filter_containment.1 exState "/a" (by decide) ⟨"A", "r1", "/a/b", []⟩

/-- The string `sub` occurs verbatim (contiguously) inside `s`. -/
def strContains (s sub : String) : Prop :=
  ∃ p q, s = p ++ (sub ++ q)

theorem strContains_appendR (s t sub : String) (h : strContains s sub) :
    strContains (s ++ t) sub := by
  obtain ⟨p, q, rfl⟩ := h
  exact ⟨p, q ++ t, by rw [String.append_assoc, String.append_assoc]⟩

theorem strContains_appendL (t s sub : String) (h : strContains s sub) :
    strContains (t ++ s) sub := by
  obtain ⟨p, q, rfl⟩ := h
  exact ⟨t ++ p, q, by rw [String.append_assoc]⟩

theorem renderAll_contains (f : Attachment → String) (l : List Attachment)
    (a : Attachment) (ha : a ∈ l) (hf : strContains (f a) a.content) :
    strContains (renderAll f l) a.content := by
  induction l with
  | nil => cases ha
  | cons b rest ih =>
      show strContains (f b ++ renderAll f rest) a.content
      rcases List.mem_cons.mp ha with rfl | hm
      · exact strContains_appendR _ _ _ hf
      · exact strContains_appendL _ _ _ (ih hm)

/-- File and code attachments inline their full content, under both
dispatchers' renderings. -/
theorem renderAttachment_contains (a : Attachment)
    (h : a.type = .file ∨ a.type = .code) :
    strContains (renderAttachment a) a.content ∧
    strContains (renderAttachmentSSE a) a.content := by
  rcases h with h | h
  · constructor
    · exact ⟨"- [文件] " ++ a.name ++ "\n内容:\n", "\n",
        by simp [renderAttachment, h, String.append_assoc]⟩
    · exact ⟨"- [文件] " ++ a.name ++ "\n内容:\n", "\n",
        by simp [renderAttachmentSSE, h, String.append_assoc]⟩
  · constructor
    · exact ⟨"- [代码] " ++ a.name ++ "\n\x60\x60\x60\n", "\n\x60\x60\x60\n",
        by simp [renderAttachment, h, String.append_assoc]⟩
    · exact ⟨"- [代码] " ++ a.name ++ "\n\x60\x60\x60\n", "\n\x60\x60\x60\n",
        by simp [renderAttachmentSSE, h, String.append_assoc]⟩

theorem formatWith_contains_user (f : Attachment → String) (u : String)
    (atts : Option (List Attachment)) :
    strContains (formatWith f ⟨true, u, atts⟩) u := by
  have hbase : strContains
      ("用户选择继续，并提供了新指令:\n" ++ u ++ "\n\n请立即执行用户的新指令。") u :=
    ⟨"用户选择继续，并提供了新指令:\n", "\n\n请立即执行用户的新指令。",
      by rw [String.append_assoc]⟩
  cases atts with
  | none => simpa [formatWith] using hbase
  | some l =>
      by_cases h0 : l.length > 0
      · have heq : formatWith f ⟨true, u, some l⟩
            = ("用户选择继续，并提供了新指令:\n" ++ u ++ "\n\n请立即执行用户的新指令。"
                ++ "\n\n附件信息:\n") ++ renderAll f l := by
          simp [formatWith, h0]
        rw [heq]
        exact strContains_appendR _ _ _ (strContains_appendR _ _ _ hbase)
      · simpa [formatWith, h0] using hbase

theorem formatWith_contains_attachment (f : Attachment → String) (u : String)
    (l : List Attachment) (a : Attachment) (ha : a ∈ l)
    (hf : strContains (f a) a.content) :
    strContains (formatWith f ⟨true, u, some l⟩) a.content := by
  have h0 : l.length > 0 := List.length_pos.mpr (List.ne_nil_of_mem ha)
  have heq : formatWith f ⟨true, u, some l⟩
      = ("用户选择继续，并提供了新指令:\n" ++ u ++ "\n\n请立即执行用户的新指令。"
          ++ "\n\n附件信息:\n") ++ renderAll f l := by
    simp [formatWith, h0]
  rw [heq]
  exact strContains_appendL _ _ _ (renderAll_contains f l a ha hf)

/-- Claim C6: when the resolution has `shouldContinue = false`, the
`tools/call` result text is the one fixed stop directive, for every
`userInput` and attachment list, under both dispatchers; when
`shouldContinue = true`, the result text contains the resolution's `userInput`
verbatim and, for every file or code attachment supplied, that attachment's
full content. -/
theorem tool_result_text (r : DialogResolution) :
    (r.shouldContinue = false →
      formatToolResult r = stopText ∧ formatToolResultSSE r = stopText) ∧
    (r.shouldContinue = true →
      strContains (formatToolResult r) r.userInput ∧
      strContains (formatToolResultSSE r) r.userInput ∧
      ∀ l, r.attachments = some l → ∀ a ∈ l,
        (a.type = AttachmentType.file ∨ a.type = AttachmentType.code) →
        strContains (formatToolResult r) a.content ∧
        strContains (formatToolResultSSE r) a.content) := by
  obtain ⟨sc, u, atts⟩ := r
  constructor
  · rintro rfl
    exact ⟨by simp [formatToolResult, formatWith],
           by simp [formatToolResultSSE, formatWith]⟩
  · rintro rfl
    refine ⟨formatWith_contains_user _ u atts, formatWith_contains_user _ u atts, ?_⟩
    rintro l rfl a ha hty
    exact ⟨formatWith_contains_attachment _ u l a ha (renderAttachment_contains a hty).1,
           formatWith_contains_attachment _ u l a ha (renderAttachment_contains a hty).2⟩

/-- Witness for C6: the end-to-end stop and continue scenarios at a concrete
resolution carrying the code attachment `print(1)`. -/
theorem tool_result_text_witness :
    formatToolResult ⟨false, "ignored", some [⟨AttachmentType.code, "x.py", "print(1)", none⟩]⟩
      = stopText ∧
    strContains (formatToolResult
      ⟨true, "keep going", some [⟨AttachmentType.code, "x.py", "print(1)", none⟩]⟩)
      "keep going" ∧
    strContains (formatToolResult
      ⟨true, "keep going", some [⟨AttachmentType.code, "x.py", "print(1)", none⟩]⟩)
      "print(1)" := by
  have h1 := tool_result_text
    ⟨false, "ignored", some [⟨AttachmentType.code, "x.py", "print(1)", none⟩]⟩
  have h2 := tool_result_text
    ⟨true, "keep going", some [⟨AttachmentType.code, "x.py", "print(1)", none⟩]⟩
  refine ⟨(h1.1 rfl).1, (h2.2 rfl).1, ?_⟩
  exact ((h2.2 rfl).2.2 _ rfl ⟨AttachmentType.code, "x.py", "print(1)", none⟩
    (by decide) (Or.inr rfl)).1

/-- Claim C7: a JSON-RPC message whose method is none of `initialize`,
`initialized`, `tools/list`, `tools/call` produces a `-32601` error response
echoing the message's id when one is present, and no response at all when the
id is absent; and a `tools/call` naming any tool other than the published one
produces a `-32601` error response — in every case leaving the server state
(in particular the pending set) untouched. -/
theorem unknown_method_dispatch (version : String) (s : ServerState)
    (req : MCPRequestMsg) (did : String) :
    (req.method ≠ "initialize" → req.method ≠ "initialized" →
     req.method ≠ "tools/list" → req.method ≠ "tools/call" →
      (∀ i, req.id = some i →
        handleMCP version s req did
          = (s, .response (.failure (some i)
              ⟨-32601, "Method not found: " ++ req.method⟩))) ∧
      (req.id = none → handleMCP version s req did = (s, .noResponse))) ∧
    (req.method = "tools/call" → req.paramsName ≠ some "AI_chat_HITL" →
      handleMCP version s req did
        = (s, .response (.failure req.id
            ⟨-32601, "Unknown tool: " ++ jsTemplate req.paramsName⟩))) := by
  constructor
  · intro h1 h2 h3 h4
    constructor
    · intro i hi
      simp [handleMCP, h1, h2, h3, h4, hi]
    · intro hi
      simp [handleMCP, h1, h2, h3, h4, hi]
  · intro hm hn
    simp [handleMCP, hm, hn]

/-- Witness for C7: a concrete unknown method with an id, one without, and a
`tools/call` naming an unknown tool. -/
theorem unknown_method_dispatch_witness :
    handleMCP "1.5.0" ServerState.init ⟨some "7", "resources/list", none, none, none⟩ "d"
      = (ServerState.init, .response (.failure (some "7")
          ⟨-32601, "Method not found: " ++ "resources/list"⟩)) ∧
    handleMCP "1.5.0" ServerState.init ⟨none, "resources/list", none, none, none⟩ "d"
      = (ServerState.init, .noResponse) ∧
    handleMCP "1.5.0" ServerState.init ⟨some "8", "tools/call", some "other_tool", none, none⟩ "d"
      = (ServerState.init, .response (.failure (some "8")
          ⟨-32601, "Unknown tool: " ++ jsTemplate (some "other_tool")⟩)) := by
  refine ⟨?_, ?_, ?_⟩
  · exact (unknown_method_dispatch "1.5.0" ServerState.init
      ⟨some "7", "resources/list", none, none, none⟩ "d").1
        (by decide) (by decide) (by decide) (by decide) |>.1 "7" rfl
  · exact (unknown_method_dispatch "1.5.0" ServerState.init
      ⟨none, "resources/list", none, none, none⟩ "d").1
        (by decide) (by decide) (by decide) (by decide) |>.2 rfl
  · exact (unknown_method_dispatch "1.5.0" ServerState.init
      ⟨some "8", "tools/call", some "other_tool", none, none⟩ "d").2
        rfl (by decide)

/-- Claim C8: `initialize` is idempotent and deterministic — on one server
instance (whose `version` is fixed) there is a single result payload that
every `initialize` call returns, whatever state any interleaved operations
have driven the server into; only the echoed id varies, and the state is left
unchanged. -/
theorem initialize_deterministic (version : String) (s : ServerState)
    (req : MCPRequestMsg) (did : String) (h : req.method = "initialize") :
    handleMCP version s req did
      = (s, .response (.success req.id
          (.initRes "2024-11-05" "AI_chat_HITL" version))) := by
  simp [handleMCP, h]

/-- Witness for C8: two `initialize` calls on the same instance, from a fresh
state and from a state mutated in between, return the same payload, differing
only in the echoed id. -/
theorem initialize_deterministic_witness :
    handleMCP "1.5.0" ServerState.init
        ⟨some "1", "initialize", none, none, none⟩ "d1"
      = (ServerState.init, .response (.success (some "1")
          (.initRes "2024-11-05" "AI_chat_HITL" "1.5.0"))) ∧
    handleMCP "1.5.0" ((submit ServerState.init "r" "/w" "A").1)
        ⟨some "2", "initialize", some "x", some "y", some "/w"⟩ "d2"
      = ((submit ServerState.init "r" "/w" "A").1,
          .response (.success (some "2")
            (.initRes "2024-11-05" "AI_chat_HITL" "1.5.0"))) :=
  ⟨initialize_deterministic "1.5.0" ServerState.init
      ⟨some "1", "initialize", none, none, none⟩ "d1" rfl,
   initialize_deterministic "1.5.0" ((submit ServerState.init "r" "/w" "A").1)
      ⟨some "2", "initialize", some "x", some "y", some "/w"⟩ "d2" rfl⟩

/-- Claim C9: the `/respond` endpoint looks the dialog up under the `id` field
when that field is truthy and under the `dialogId` field otherwise, so a body
supplying a (truthy) value only as `dialogId` resolves exactly the same dialog
— with identical state change and success flag — as a body supplying the same
value only as `id`. -/
theorem respond_id_or_dialogId (s : ServerState) (r : DialogResolution)
    (now : Nat) (v : String) :
    (∀ w, v ≠ "" →
      respondEndpoint s (some v) w r now = respondToDialog s v r now) ∧
    (∀ id, jsTruthy id = false →
      respondEndpoint s id (some v) r now = respondToDialog s v r now) ∧
    (v ≠ "" →
      respondEndpoint s (some v) none r now
        = respondEndpoint s none (some v) r now) := by
  refine ⟨?_, ?_, ?_⟩
  · intro w hv
    simp [respondEndpoint, jsTruthy, hv]
  · intro id hid
    simp [respondEndpoint, hid]
  · intro hv
    simp [respondEndpoint, jsTruthy, hv]

/-- Witness for C9: on a concrete one-dialog state, a body carrying the id
only as `dialogId` behaves exactly as one carrying it as `id`. -/
theorem respond_id_or_dialogId_witness :
    respondEndpoint ((submit ServerState.init "why" "/w" "D1").1) (some "D1")
        none ⟨true, "go", none⟩ 5
      = respondEndpoint ((submit ServerState.init "why" "/w" "D1").1) none
        (some "D1") ⟨true, "go", none⟩ 5 :=
  (respond_id_or_dialogId ((submit ServerState.init "why" "/w" "D1").1)
    ⟨true, "go", none⟩ 5 "D1").2.2 (by decide)

/-- Claim C10: a successful resolution mutates only the resolved dialog's own
state — every other pending id keeps its (unchanged) entry, every other
workspace string keeps its history, and the counter map is not touched at
all. -/
theorem resolve_frame (s : ServerState) (id : String) (r : DialogResolution)
    (now : Nat) (e : PendingEntry)
    (he : mapGet s.pendingDialogs id = some e) :
    (∀ id', id' ≠ id →
      mapGet (resolveDialog s id r now).1.pendingDialogs id'
        = mapGet s.pendingDialogs id') ∧
    (∀ w, w ≠ e.workspace →
      mapGet (resolveDialog s id r now).1.dialogHistory w
        = mapGet s.dialogHistory w) ∧
    (resolveDialog s id r now).1.dialogCounts = s.dialogCounts := by
  have hres : resolveDialog s id r now =
      (⟨mapDelete s.pendingDialogs id,
        mapSet s.dialogHistory e.workspace
          (e.snapshot ++ [⟨now, e.reason, r.userInput, r.shouldContinue⟩]),
        s.dialogCounts⟩, some r) := by
    simp [resolveDialog, he]
  rw [hres]
  exact ⟨fun id' h => mapGet_mapDelete_ne _ _ _ h,
         fun w h => mapGet_mapSet_ne _ _ _ _ h, rfl⟩

/-- Witness for C10: resolving dialog "A" on a two-dialog, two-workspace state
leaves dialog "B"'s pending entry and workspace "/b"'s history untouched. -/
theorem resolve_frame_witness :
    (mapGet (resolveDialog ((submit ((submit ServerState.init "ra" "/a" "A").1)
        "rb" "/b" "B").1) "A" ⟨true, "u", none⟩ 9).1.pendingDialogs "B"
      = mapGet ((submit ((submit ServerState.init "ra" "/a" "A").1)
        "rb" "/b" "B").1).pendingDialogs "B") ∧
    (mapGet (resolveDialog ((submit ((submit ServerState.init "ra" "/a" "A").1)
        "rb" "/b" "B").1) "A" ⟨true, "u", none⟩ 9).1.dialogHistory "/b"
      = mapGet ((submit ((submit ServerState.init "ra" "/a" "A").1)
        "rb" "/b" "B").1).dialogHistory "/b") := by
  have h := resolve_frame ((submit ((submit ServerState.init "ra" "/a" "A").1)
    "rb" "/b" "B").1) "A" ⟨true, "u", none⟩ 9 ⟨"A", "ra", "/a", []⟩ (by decide)
  exact ⟨h.1 "B" (by decide), h.2.1 "/b" (by decide)⟩

end HITL
